import Mathlib

/-!
Verification of the file-batch checker: a shallow embedding of the two
entry points of the repository (the lenient variant in src/index.cts and
the strict variant in src/index.ts) and proofs about the Extension
Classifier (checkExtGroup) and the Module-Format Analyzer
(checkModuleFormat).

The external TypeScript parser (ts.createSourceFile) is not part of this
repository; the Module-Format Analyzer is therefore parameterized by a
parse function producing either a syntax tree or an exception, and the
repository code that walks the tree and aggregates the counters is
embedded faithfully.
-/

/-- One input file: an identifying path and a full textual content
(the DepsFile interface of the source). -/
structure DepsFile where
  file : String
  content : String
  deriving DecidableEq, Repr

/-- Characters of the last path segment, i.e. the part of the path after
the final slash. -/
def basenameChars (s : String) : List Char :=
  (s.data.reverse.takeWhile (fun c => c ≠ '/')).reverse

/-- Suffix of a character list starting at its last dot, if it has one. -/
def lastDotSuffix : List Char → Option (List Char)
  | [] => none
  | c :: rest =>
    match lastDotSuffix rest with
    | some s => some s
    | none => if c = '.' then some (c :: rest) else none

/-- Node path.extname semantics: the extension of the last path segment,
from its last dot to the end; empty when the segment has no dot, when its
only dot is its first character (dotfiles), or for the segments dot and
dot-dot. -/
def extname (s : String) : String :=
  let b := basenameChars s
  if b = ['.'] ∨ b = ['.', '.'] then ""
  else
    match b with
    | [] => ""
    | _ :: rest =>
      match lastDotSuffix rest with
      | none => ""
      | some suf => String.mk suf

/-- ECMAScript-module JavaScript suffixes (jsesm_exts in the source). -/
def jsesm_exts : List String := [".js", ".mjs"]

/-- CommonJS-only JavaScript suffixes (jscjs_exts in the source). -/
def jscjs_exts : List String := [".cjs"]

/-- ECMAScript-module TypeScript suffixes (tsesm_exts in the source). -/
def tsesm_exts : List String := [".ts", ".mts"]

/-- CommonJS-only TypeScript suffixes (tscjs_exts in the source). -/
def tscjs_exts : List String := [".cts"]

/-- JSX-flavored suffixes (jsx_exts in the source). -/
def jsx_exts : List String := [".jsx", ".tsx"]

/-- All recognized suffixes (all_exts in the source). -/
def all_exts : List String :=
  jscjs_exts ++ jsesm_exts ++ tscjs_exts ++ tsesm_exts ++ jsx_exts

/-- Result record of the lenient Extension Classifier (src/index.cts
checkExtGroup). -/
structure ExtGroupResult where
  isNone : Bool
  isJsx : Bool
  isCjs : Bool
  isBoth : Bool
  isJs : Bool
  isTs : Bool
  deriving DecidableEq, Repr

/-- Lenient Extension Classifier (src/index.cts checkExtGroup): maps each
file to its extname and computes the homogeneity flags by every-checks
over the fixed suffix sets. -/
def checkExtGroup (deps : List DepsFile) : ExtGroupResult :=
  let exts := deps.map (fun dep => extname dep.file)
  let isCjs :=
    exts.all (fun i => jscjs_exts.contains i) ||
    exts.all (fun i => tscjs_exts.contains i)
  let isJsx := exts.all (fun i => jsx_exts.contains i)
  let isJs := exts.all (fun i => jsesm_exts.contains i)
  let isTs := exts.all (fun i => tsesm_exts.contains i)
  let isBoth := isJs && isTs
  let isNone := !(exts.all (fun i => all_exts.contains i))
  { isNone, isJsx, isCjs, isBoth, isJs, isTs }

/-- Outcome of a strict-variant check: either the process exits with a
non-zero status after printing the given warning (console.warn followed
by process.exit(1) in the source), or the function returns a value. -/
inductive StrictOutcome where
  | exited (warning : String)
  | ok (result : Bool)
  deriving DecidableEq, Repr

/-- Warning printed by the strict extension check on isNone. -/
def warnExtNone : String :=
  "Bundler detects none Javascript or Typescript extensions in the dependencies tree."

/-- Warning printed by the strict extension check on isCjs. -/
def warnExtCjs : String :=
  "The package detects commonjs extensions (.cjd or .cts) in the dependencies tree, which is currently unsupported."

/-- Warning printed by the strict extension check on isBoth. -/
def warnExtBoth : String :=
  "The package detects both Javascript or Typescript extensions in the dependencies tree, currently unsupported."

/-- Warning printed by the strict module-format check on a nonzero
unknown count. -/
def warnFormatUnknown : String :=
  "Unknown error when checking module types in the dependencies tree."

/-- Warning printed by the strict module-format check on a nonzero
CommonJS count. -/
def warnFormatCjs : String :=
  "The package detects CommonJs format  in the dependencies tree, currently unsupported."

/-- Strict Extension Classifier (src/index.ts checkExtGroup): computes
the same flags as the lenient variant (without isJsx) over the full
batch, then exits on isNone, then isCjs, then isBoth, in that order. -/
def checkExtGroupStrict (deps : List DepsFile) : StrictOutcome :=
  let exts := deps.map (fun dep => extname dep.file)
  let isCjs :=
    exts.all (fun i => jscjs_exts.contains i) ||
    exts.all (fun i => tscjs_exts.contains i)
  let isJs := exts.all (fun i => jsesm_exts.contains i)
  let isTs := exts.all (fun i => tsesm_exts.contains i)
  let isBoth := isJs && isTs
  let isNone := !(exts.all (fun i => all_exts.contains i))
  if isNone then .exited warnExtNone
  else if isCjs then .exited warnExtCjs
  else if isBoth then .exited warnExtBoth
  else .ok true

/-- Syntactic kinds of declarations whose export modifier the walk
inspects (isVariableStatement, isFunctionDeclaration,
isInterfaceDeclaration, isTypeAliasDeclaration, isEnumDeclaration,
isClassDeclaration in the source). -/
inductive DeclKind where
  | variableStatement
  | functionDeclaration
  | interfaceDeclaration
  | typeAliasDeclaration
  | enumDeclaration
  | classDeclaration
  deriving DecidableEq, Repr

/-- Modifier kinds: the walk only distinguishes the export keyword from
everything else. -/
inductive ModifierKind where
  | exportKeyword
  | otherModifier
  deriving DecidableEq, BEq, Repr

/-- Syntax tree node, carrying exactly the structure the walk in
checkModuleFormat inspects: the node kinds tested by the ts.isX
predicates, the optional modifier list of declarations, the callee
identifier text and argument count of call expressions, the literal
source text of property-access expressions, and the child nodes visited
by ts.forEachChild. Node kinds the walk never distinguishes collapse to
otherNode. -/
inductive TSNode where
  | importDeclaration (children : List TSNode)
  | importEqualsDeclaration (children : List TSNode)
  | exportDeclaration (children : List TSNode)
  | exportSpecifier (children : List TSNode)
  | exportAssignment (children : List TSNode)
  | declaration (kind : DeclKind) (modifiers : Option (List ModifierKind))
      (children : List TSNode)
  | callExpression (calleeIdent : Option String) (argCount : Nat)
      (children : List TSNode)
  | propertyAccess (text : String) (children : List TSNode)
  | otherNode (children : List TSNode)

/-- Whether a string starts with the given literal text
(String.prototype.startsWith in the source). -/
def textStartsWith (text pre : String) : Bool :=
  pre.data.isPrefixOf text.data

/-- The modifiers check of the walk: node.modifiers optional-chained into
a some-check for the export keyword; an absent modifier list is falsy. -/
def modifiersHaveExport : Option (List ModifierKind) → Bool
  | none => false
  | some ms => ms.contains ModifierKind.exportKeyword

/-- The require-call check of the walk: the callee is the bare identifier
require and there is at least one argument. -/
def isRequireCall (calleeIdent : Option String) (argCount : Nat) : Bool :=
  calleeIdent == some "require" && decide (0 < argCount)

/-- OR-accumulation of the marker flags a node itself fires into the
flags gathered from its subtrees. -/
def orWalk (e c : Bool) (p : Bool × Bool) : Bool × Bool :=
  (e || p.1, c || p.2)

mutual
/-- The walk function of checkModuleFormat on one node: the pair
(hasESMImports, hasCommonJS) of monotone flags, each true when any node
of the subtree fires the corresponding marker rule. Every child is
visited regardless of the node kind (ts.forEachChild). -/
def walkNode : TSNode → Bool × Bool
  | .importDeclaration cs => orWalk true false (walkList cs)
  | .importEqualsDeclaration cs => orWalk true false (walkList cs)
  | .exportDeclaration cs => orWalk true false (walkList cs)
  | .exportSpecifier cs => orWalk true false (walkList cs)
  | .exportAssignment cs => orWalk true false (walkList cs)
  | .declaration _ mods cs => orWalk (modifiersHaveExport mods) false (walkList cs)
  | .callExpression callee argc cs =>
    orWalk false (isRequireCall callee argc) (walkList cs)
  | .propertyAccess text cs =>
    orWalk false
      (textStartsWith text "module.exports" || textStartsWith text "exports.")
      (walkList cs)
  | .otherNode cs => orWalk false false (walkList cs)

/-- The walk over a list of sibling nodes, OR-ing their flags. -/
def walkList : List TSNode → Bool × Bool
  | [] => (false, false)
  | n :: ns =>
    let p := walkNode n
    let q := walkList ns
    (p.1 || q.1, p.2 || q.2)
end

/-- The three counters of checkModuleFormat. The source names them
esmCount (written with a leading underscore there), cjsCount and
unknowCount; only the last two are returned by the lenient variant. -/
structure Counters where
  esmCount : Nat
  cjsCount : Nat
  unknowCount : Nat
  deriving DecidableEq, Repr

/-- The counters before the loop: all three start at zero on every
invocation. -/
def zeroCounters : Counters := { esmCount := 0, cjsCount := 0, unknowCount := 0 }

/-- One iteration of the loop of checkModuleFormat: a thrown parse or
traversal exception is caught and increments unknowCount; otherwise the
walked flags classify the file into the esm, cjs or esm-mixed branch, or
into no branch at all when neither flag is set. -/
def classifyStep (c : Counters) (pr : Except String TSNode) : Counters :=
  match pr with
  | .error _ => { c with unknowCount := c.unknowCount + 1 }
  | .ok tree =>
    let w := walkNode tree
    let hasESMImports := w.1
    let hasCommonJS := w.2
    if hasESMImports && !hasCommonJS then { c with esmCount := c.esmCount + 1 }
    else if hasCommonJS && !hasESMImports then { c with cjsCount := c.cjsCount + 1 }
    else if hasESMImports && hasCommonJS then { c with esmCount := c.esmCount + 1 }
    else c

/-- The Module-Format Analyzer (checkModuleFormat in both variants):
folds the per-file step over the batch in order, starting from zeroed
counters, with the parse of each file supplied by the external parser
(Except.error standing for a thrown exception). -/
def checkModuleFormat (parse : DepsFile → Except String TSNode)
    (deps : List DepsFile) : Counters :=
  deps.foldl (fun c dep => classifyStep c (parse dep)) zeroCounters

/-- Strict module-format check (src/index.ts checkModuleFormat): runs
the full loop, then exits on a truthy unknowCount, then on a truthy
cjsCount, else returns true. -/
def checkModuleFormatStrict (parse : DepsFile → Except String TSNode)
    (deps : List DepsFile) : StrictOutcome :=
  let c := checkModuleFormat parse deps
  if c.unknowCount ≠ 0 then .exited warnFormatUnknown
  else if c.cjsCount ≠ 0 then .exited warnFormatCjs
  else .ok true

/-- The record returned by the lenient entry point (src/index.cts check):
the spread of the checkExtGroup result with the pair returned by
checkModuleFormat, which exposes only unknowCount and cjsCount and drops
the internal esmCount. -/
structure CheckResult where
  isNone : Bool
  isJsx : Bool
  isCjs : Bool
  isBoth : Bool
  isJs : Bool
  isTs : Bool
  unknowCount : Nat
  cjsCount : Nat
  deriving DecidableEq, Repr

/-- The lenient entry point (src/index.cts check): runs the type-check
pass-through unless noCheck is set (the pass is the external engine,
modelled as a parameter; a failure there is rethrown as the fixed
message), then combines the classifier flags with the module-format
counters. -/
def check (parse : DepsFile → Except String TSNode)
    (typeCheck : List DepsFile → Except String Unit)
    (deps : List DepsFile) (noCheck : Bool) : Except String CheckResult :=
  match (if noCheck then Except.ok () else typeCheck deps) with
  | .error _ => .error "Error when type checking"
  | .ok _ =>
    let ce := checkExtGroup deps
    let cm := checkModuleFormat parse deps
    .ok { isNone := ce.isNone, isJsx := ce.isJsx, isCjs := ce.isCjs,
          isBoth := ce.isBoth, isJs := ce.isJs, isTs := ce.isTs,
          unknowCount := cm.unknowCount, cjsCount := cm.cjsCount }

/-- Componentwise sum of counters. -/
def addCounters (a b : Counters) : Counters :=
  { esmCount := a.esmCount + b.esmCount,
    cjsCount := a.cjsCount + b.cjsCount,
    unknowCount := a.unknowCount + b.unknowCount }

/-- The contribution of a single file to the counters: the step applied
to zeroed counters. -/
def contrib (pr : Except String TSNode) : Counters :=
  classifyStep zeroCounters pr

/-- A parse outcome that sets neither marker: a successfully walked tree
with both flags false (a format-agnostic file). -/
def isNeither (pr : Except String TSNode) : Bool :=
  match pr with
  | .error _ => false
  | .ok t => !(walkNode t).1 && !(walkNode t).2

/-- Two sequential invocations of the Module-Format Analyzer on the same
batch with the same parser. -/
def checkModuleFormatTwice (parse : DepsFile → Except String TSNode)
    (deps : List DepsFile) : Counters × Counters :=
  (checkModuleFormat parse deps, checkModuleFormat parse deps)

/-- Concrete syntax tree of a file holding both an import declaration and
a one-argument call of the bare identifier require. -/
def mixedTree : TSNode :=
  .otherNode [.importDeclaration [], .callExpression (some "require") 1 []]

/-- Concrete syntax tree of a format-agnostic file: a single variable
statement without modifiers (for example a file whose whole content is
the statement const a = 1). -/
def plainTree : TSNode :=
  .declaration .variableStatement none []

/-- Concrete syntax tree produced by the external parser for the content
export const a = 1; namely a variable statement carrying the export
modifier. -/
def exportVarTree : TSNode :=
  .declaration .variableStatement (some [.exportKeyword]) []

/-- Concrete parser behavior with one failing file: the file named
bad.ts throws, every other file parses to an exported variable
statement. -/
def parseWithFailure : DepsFile → Except String TSNode :=
  fun dep =>
    if dep.file = "bad.ts" then Except.error "Debug Failure."
    else Except.ok exportVarTree

/-- Counters addition is associative. -/
lemma addCounters_assoc (a b c : Counters) :
    addCounters (addCounters a b) c = addCounters a (addCounters b c) := by
  simp [addCounters, Nat.add_assoc]

/-- Counters addition is commutative. -/
lemma addCounters_comm (a b : Counters) :
    addCounters a b = addCounters b a := by
  simp [addCounters, Nat.add_comm]

/-- Zeroed counters are a left unit for counters addition. -/
lemma zeroCounters_add (a : Counters) :
    addCounters zeroCounters a = a := by
  simp [addCounters, zeroCounters]

/-- Zeroed counters are a right unit for counters addition. -/
lemma add_zeroCounters (a : Counters) :
    addCounters a zeroCounters = a := by
  simp [addCounters, zeroCounters]

/-- One loop iteration adds the contribution of the file to the counters
accumulated so far. -/
lemma classifyStep_eq_add (c : Counters) (pr : Except String TSNode) :
    classifyStep c pr = addCounters c (contrib pr) := by
  cases pr with
  | error e => simp [classifyStep, contrib, addCounters, zeroCounters]
  | ok t =>
    cases h1 : (walkNode t).1 <;> cases h2 : (walkNode t).2 <;>
      simp [classifyStep, contrib, addCounters, zeroCounters, h1, h2]

/-- The loop started from arbitrary counters computes the run from
zeroed counters added to the start value. -/
lemma checkModuleFormat_from (parse : DepsFile → Except String TSNode)
    (deps : List DepsFile) (init : Counters) :
    deps.foldl (fun c dep => classifyStep c (parse dep)) init =
      addCounters init (checkModuleFormat parse deps) := by
  induction deps generalizing init with
  | nil => simp [checkModuleFormat, add_zeroCounters]
  | cons d ds ih =>
    simp only [List.foldl_cons, checkModuleFormat] at ih ⊢
    rw [ih, ih (classifyStep zeroCounters (parse d)),
      classifyStep_eq_add init (parse d), classifyStep_eq_add zeroCounters (parse d),
      zeroCounters_add, addCounters_assoc]

/-- The analyzer on a cons batch: the contribution of the head plus the
analyzer on the tail. -/
lemma checkModuleFormat_cons (parse : DepsFile → Except String TSNode)
    (d : DepsFile) (ds : List DepsFile) :
    checkModuleFormat parse (d :: ds) =
      addCounters (contrib (parse d)) (checkModuleFormat parse ds) := by
  simp only [checkModuleFormat, List.foldl_cons]
  rw [checkModuleFormat_from, classifyStep_eq_add, zeroCounters_add]
  simp [checkModuleFormat]

/-- The analyzer distributes over batch concatenation. -/
lemma checkModuleFormat_append (parse : DepsFile → Except String TSNode)
    (xs ys : List DepsFile) :
    checkModuleFormat parse (xs ++ ys) =
      addCounters (checkModuleFormat parse xs) (checkModuleFormat parse ys) := by
  simp only [checkModuleFormat, List.foldl_append]
  rw [checkModuleFormat_from]
  simp [checkModuleFormat]

/-- Inserting one file anywhere in the batch adds exactly that file's
contribution to the counters of the remaining batch. -/
lemma checkModuleFormat_insert (parse : DepsFile → Except String TSNode)
    (pre post : List DepsFile) (dep : DepsFile) :
    checkModuleFormat parse (pre ++ dep :: post) =
      addCounters (contrib (parse dep)) (checkModuleFormat parse (pre ++ post)) := by
  rw [checkModuleFormat_append, checkModuleFormat_cons, checkModuleFormat_append]
  simp only [addCounters, Counters.mk.injEq]
  omega

/-- The analyzer of the empty batch leaves all counters at zero. -/
lemma checkModuleFormat_nil (parse : DepsFile → Except String TSNode) :
    checkModuleFormat parse [] = zeroCounters := rfl

/-- Case analysis on the contribution of one file: exactly one counter
is incremented, or none at all exactly when the walk set neither
marker. -/
lemma contrib_spec (pr : Except String TSNode) :
    contrib pr = ⟨1, 0, 0⟩ ∨ contrib pr = ⟨0, 1, 0⟩ ∨ contrib pr = ⟨0, 0, 1⟩ ∨
      (contrib pr = ⟨0, 0, 0⟩ ∧ isNeither pr = true) := by
  cases pr with
  | error e =>
    right; right; left
    simp [contrib, classifyStep, zeroCounters]
  | ok t =>
    cases h1 : (walkNode t).1 <;> cases h2 : (walkNode t).2
    · right; right; right
      simp [contrib, classifyStep, zeroCounters, isNeither, h1, h2]
    · right; left
      simp [contrib, classifyStep, zeroCounters, h1, h2]
    · left
      simp [contrib, classifyStep, zeroCounters, h1, h2]
    · left
      simp [contrib, classifyStep, zeroCounters, h1, h2]

/-- The contribution of one file raises the three counters and the
neither-marker indicator by one in total. -/
lemma contrib_sum (pr : Except String TSNode) :
    (contrib pr).esmCount + (contrib pr).cjsCount + (contrib pr).unknowCount +
      (if isNeither pr then 1 else 0) = 1 := by
  cases pr with
  | error e => simp [contrib, classifyStep, zeroCounters, isNeither]
  | ok t =>
    cases h1 : (walkNode t).1 <;> cases h2 : (walkNode t).2 <;>
      simp [contrib, classifyStep, zeroCounters, isNeither, h1, h2]

/-- Characterization of the isCjs flag: a homogeneous dot-cjs batch or a
homogeneous dot-cts batch. -/
lemma isCjs_iff (deps : List DepsFile) :
    (checkExtGroup deps).isCjs = true ↔
      ((∀ dep ∈ deps, extname dep.file = ".cjs") ∨
       (∀ dep ∈ deps, extname dep.file = ".cts")) := by
  simp [checkExtGroup, jscjs_exts, tscjs_exts]

/-- Characterization of the isJs flag: every suffix is dot-js or
dot-mjs. -/
lemma isJs_iff (deps : List DepsFile) :
    (checkExtGroup deps).isJs = true ↔
      ∀ dep ∈ deps, extname dep.file = ".js" ∨ extname dep.file = ".mjs" := by
  simp [checkExtGroup, jsesm_exts]

/-- Characterization of the isTs flag: every suffix is dot-ts or
dot-mts. -/
lemma isTs_iff (deps : List DepsFile) :
    (checkExtGroup deps).isTs = true ↔
      ∀ dep ∈ deps, extname dep.file = ".ts" ∨ extname dep.file = ".mts" := by
  simp [checkExtGroup, tsesm_exts]

/-- Characterization of the isJsx flag: every suffix is dot-jsx or
dot-tsx. -/
lemma isJsx_iff (deps : List DepsFile) :
    (checkExtGroup deps).isJsx = true ↔
      ∀ dep ∈ deps, extname dep.file = ".jsx" ∨ extname dep.file = ".tsx" := by
  simp [checkExtGroup, jsx_exts]

/-- Characterization of the isNone flag: some suffix lies outside every
recognized group. -/
lemma isNone_iff (deps : List DepsFile) :
    (checkExtGroup deps).isNone = true ↔
      ∃ dep ∈ deps, extname dep.file ∉ all_exts := by
  simp [checkExtGroup, all_exts, jscjs_exts, jsesm_exts, tscjs_exts, tsesm_exts,
    jsx_exts]

/-- Strict extension check expressed through the lenient flags: the exits
test isNone, then isCjs, then isBoth, each computed over the full
batch. -/
lemma checkExtGroupStrict_eq (deps : List DepsFile) :
    checkExtGroupStrict deps =
      if (checkExtGroup deps).isNone = true then .exited warnExtNone
      else if (checkExtGroup deps).isCjs = true then .exited warnExtCjs
      else if (checkExtGroup deps).isBoth = true then .exited warnExtBoth
      else .ok true := rfl

/-- C1: a file whose traversal sets both the ESM marker and the CommonJS
marker is counted as ESM: inserting it anywhere in a batch increments
esmCount by one and leaves cjsCount and unknowCount unchanged. -/
theorem c1_mixed_markers_counted_esm
    (parse : DepsFile → Except String TSNode) (pre post : List DepsFile)
    (dep : DepsFile) (tree : TSNode)
    (hparse : parse dep = Except.ok tree)
    (hesm : (walkNode tree).1 = true) (hcjs : (walkNode tree).2 = true) :
    checkModuleFormat parse (pre ++ dep :: post) =
      { checkModuleFormat parse (pre ++ post) with
        esmCount := (checkModuleFormat parse (pre ++ post)).esmCount + 1 } := by
  rw [checkModuleFormat_insert]
  have hc : contrib (parse dep) = ⟨1, 0, 0⟩ := by
    rw [hparse]
    simp [contrib, classifyStep, zeroCounters, hesm, hcjs]
  rw [hc]
  simp only [addCounters, Counters.mk.injEq]
  omega

/-- Witness for C1: a concrete file holding an import declaration and a
require call is counted toward esmCount only. -/
theorem c1_witness :
    checkModuleFormat (fun _ => Except.ok mixedTree)
        ([] ++ { file := "m.ts", content := "mixed" } :: []) =
      { checkModuleFormat (fun _ => Except.ok mixedTree) ([] ++ []) with
        esmCount :=
          (checkModuleFormat (fun _ => Except.ok mixedTree) ([] ++ [])).esmCount + 1 } :=
  c1_mixed_markers_counted_esm (fun _ => Except.ok mixedTree) [] []
    { file := "m.ts", content := "mixed" } mixedTree rfl (by decide) (by decide)

/-- C2 counterexample: a batch of one format-agnostic file (its tree is a
single unmodified variable statement) has esmCount, cjsCount and
unknowCount all zero while the batch size is one, so the three counters
do not sum to the batch size. -/
theorem c2_counterexample :
    ¬ ((checkModuleFormat (fun _ => Except.ok plainTree)
          [{ file := "a.ts", content := "const a = 1;" }]).esmCount +
        (checkModuleFormat (fun _ => Except.ok plainTree)
          [{ file := "a.ts", content := "const a = 1;" }]).cjsCount +
        (checkModuleFormat (fun _ => Except.ok plainTree)
          [{ file := "a.ts", content := "const a = 1;" }]).unknowCount =
        [({ file := "a.ts", content := "const a = 1;" } : DepsFile)].length) := by
  decide

/-- C2 (amended): every file contributes to at most one counter bucket
and the buckets are mutually exclusive; the three counters plus the
number of files whose traversal set neither marker sum to the batch
size. -/
theorem c2_bucket_sum_amended (parse : DepsFile → Except String TSNode)
    (deps : List DepsFile) :
    (checkModuleFormat parse deps).esmCount + (checkModuleFormat parse deps).cjsCount +
        (checkModuleFormat parse deps).unknowCount +
        deps.countP (fun dep => isNeither (parse dep)) = deps.length ∧
    (∀ pr : Except String TSNode,
      contrib pr = ⟨1, 0, 0⟩ ∨ contrib pr = ⟨0, 1, 0⟩ ∨ contrib pr = ⟨0, 0, 1⟩ ∨
        (contrib pr = ⟨0, 0, 0⟩ ∧ isNeither pr = true)) := by
  constructor
  · induction deps with
    | nil => simp [checkModuleFormat, zeroCounters]
    | cons d ds ih =>
      rw [checkModuleFormat_cons]
      have hs := contrib_sum (parse d)
      simp only [addCounters, List.countP_cons, List.length_cons]
      by_cases hn : isNeither (parse d) = true
      · simp only [hn, if_true] at hs
        simp only [hn, if_true]
        omega
      · simp only [Bool.not_eq_true] at hn
        simp only [hn, Bool.false_eq_true, if_false] at hs
        simp only [hn, Bool.false_eq_true, if_false]
        omega
  · exact contrib_spec

/-- C3: a file whose traversal sets neither marker contributes to no
counter: inserting it anywhere in a batch leaves esmCount, cjsCount and
unknowCount all unchanged, so it is not treated as an error. -/
theorem c3_neither_marker_no_counter
    (parse : DepsFile → Except String TSNode) (pre post : List DepsFile)
    (dep : DepsFile) (tree : TSNode)
    (hparse : parse dep = Except.ok tree)
    (hesm : (walkNode tree).1 = false) (hcjs : (walkNode tree).2 = false) :
    checkModuleFormat parse (pre ++ dep :: post) =
      checkModuleFormat parse (pre ++ post) := by
  rw [checkModuleFormat_insert]
  have hc : contrib (parse dep) = zeroCounters := by
    rw [hparse]
    simp [contrib, classifyStep, zeroCounters, hesm, hcjs]
  rw [hc, zeroCounters_add]

/-- Witness for C3: a concrete format-agnostic file (a single unmodified
variable statement) leaves the counters unchanged. -/
theorem c3_witness :
    checkModuleFormat (fun _ => Except.ok plainTree)
        ([] ++ { file := "p.ts", content := "const a = 1;" } :: []) =
      checkModuleFormat (fun _ => Except.ok plainTree) ([] ++ []) :=
  c3_neither_marker_no_counter (fun _ => Except.ok plainTree) [] []
    { file := "p.ts", content := "const a = 1;" } plainTree rfl (by decide) (by decide)

/-- C4: a file whose parse (or traversal) throws is caught locally:
inserting it anywhere in a batch increments unknowCount by exactly one
and every other file is still classified exactly as without it, so the
batch is never aborted. -/
theorem c4_parse_failure_isolated
    (parse : DepsFile → Except String TSNode) (pre post : List DepsFile)
    (dep : DepsFile) (msg : String)
    (hparse : parse dep = Except.error msg) :
    checkModuleFormat parse (pre ++ dep :: post) =
      { checkModuleFormat parse (pre ++ post) with
        unknowCount := (checkModuleFormat parse (pre ++ post)).unknowCount + 1 } := by
  rw [checkModuleFormat_insert]
  have hc : contrib (parse dep) = ⟨0, 0, 1⟩ := by
    rw [hparse]
    simp [contrib, classifyStep, zeroCounters]
  rw [hc]
  simp only [addCounters, Counters.mk.injEq]
  omega

/-- Witness for C4: a parser that throws on the one malformed file and
succeeds on the well-formed file beside it; the failure only adds one to
unknowCount and the other file is still classified. -/
theorem c4_witness :
    checkModuleFormat parseWithFailure
        ([{ file := "good.ts", content := "export const a = 1;" }] ++
          { file := "bad.ts", content := "const = ;" } :: []) =
      { checkModuleFormat parseWithFailure
          ([{ file := "good.ts", content := "export const a = 1;" }] ++ []) with
        unknowCount :=
          (checkModuleFormat parseWithFailure
            ([{ file := "good.ts", content := "export const a = 1;" }] ++ [])).unknowCount + 1 } :=
  c4_parse_failure_isolated parseWithFailure
    [{ file := "good.ts", content := "export const a = 1;" }] []
    { file := "bad.ts", content := "const = ;" } "Debug Failure." rfl

/-- C5: the Extension Classifier flags satisfy their set definitions
(isCjs a homogeneous dot-cjs or homogeneous dot-cts batch; isJs, isTs,
isJsx homogeneous over their two-suffix groups; isNone a suffix outside
every group), and the four concrete example batches classify as the
specification states. -/
theorem c5_ext_classifier_flags :
    (∀ deps : List DepsFile,
      ((checkExtGroup deps).isCjs = true ↔
        ((∀ dep ∈ deps, extname dep.file = ".cjs") ∨
         (∀ dep ∈ deps, extname dep.file = ".cts"))) ∧
      ((checkExtGroup deps).isJs = true ↔
        ∀ dep ∈ deps, extname dep.file = ".js" ∨ extname dep.file = ".mjs") ∧
      ((checkExtGroup deps).isTs = true ↔
        ∀ dep ∈ deps, extname dep.file = ".ts" ∨ extname dep.file = ".mts") ∧
      ((checkExtGroup deps).isJsx = true ↔
        ∀ dep ∈ deps, extname dep.file = ".jsx" ∨ extname dep.file = ".tsx") ∧
      ((checkExtGroup deps).isNone = true ↔
        ∃ dep ∈ deps, extname dep.file ∉ all_exts)) ∧
    checkExtGroup [{ file := "a.ts", content := "" }, { file := "b.ts", content := "" }] =
      { isNone := false, isJsx := false, isCjs := false, isBoth := false,
        isJs := false, isTs := true } ∧
    checkExtGroup [{ file := "a.js", content := "" }, { file := "b.ts", content := "" }] =
      { isNone := false, isJsx := false, isCjs := false, isBoth := false,
        isJs := false, isTs := false } ∧
    (checkExtGroup [{ file := "a.cjs", content := "" }]).isCjs = true ∧
    (checkExtGroup [{ file := "a.txt", content := "" }]).isNone = true := by
  refine ⟨fun deps =>
    ⟨isCjs_iff deps, isJs_iff deps, isTs_iff deps, isJsx_iff deps, isNone_iff deps⟩,
    by decide, by decide, by decide, by decide⟩

/-- C6: isBoth is the conjunction of isJs and isTs, and it is true
exactly on the empty batch: both every-checks are vacuously true there,
while any file of a non-empty batch would need a suffix in the two
disjoint groups at once. -/
theorem c6_isBoth_iff_empty :
    (∀ deps : List DepsFile,
      (checkExtGroup deps).isBoth =
        ((checkExtGroup deps).isJs && (checkExtGroup deps).isTs)) ∧
    (∀ deps : List DepsFile, (checkExtGroup deps).isBoth = true ↔ deps = []) := by
  constructor
  · intro deps
    rfl
  · intro deps
    constructor
    · intro h
      cases deps with
      | nil => rfl
      | cons d ds =>
        exfalso
        have hb : (checkExtGroup (d :: ds)).isJs = true ∧
            (checkExtGroup (d :: ds)).isTs = true := by
          have he : (checkExtGroup (d :: ds)).isBoth =
              ((checkExtGroup (d :: ds)).isJs && (checkExtGroup (d :: ds)).isTs) := rfl
          rw [he, Bool.and_eq_true] at h
          exact h
        have h1 := (isJs_iff (d :: ds)).mp hb.1 d (by simp)
        have h2 := (isTs_iff (d :: ds)).mp hb.2 d (by simp)
        rcases h1 with h1 | h1 <;> rcases h2 with h2 | h2 <;> rw [h1] at h2 <;>
          simp at h2
    · intro h
      subst h
      rfl

/-- C7: in the strict variant a policy violation exits the process with
a warning, and only then: the extension check exits exactly when the
full-batch flags have isNone, isCjs or isBoth set, and the module-format
check exits exactly when the full-batch counters have cjsCount or
unknowCount positive. -/
theorem c7_strict_exit_policy (parse : DepsFile → Except String TSNode)
    (deps : List DepsFile) :
    ((∃ w, checkExtGroupStrict deps = StrictOutcome.exited w) ↔
      ((checkExtGroup deps).isNone = true ∨ (checkExtGroup deps).isCjs = true ∨
        (checkExtGroup deps).isBoth = true)) ∧
    ((∃ w, checkModuleFormatStrict parse deps = StrictOutcome.exited w) ↔
      (0 < (checkModuleFormat parse deps).cjsCount ∨
        0 < (checkModuleFormat parse deps).unknowCount)) := by
  constructor
  · rw [checkExtGroupStrict_eq]
    split_ifs with h1 h2 h3
    · simp [h1]
    · simp [h1, h2]
    · simp [h1, h2, h3]
    · simp [h1, h2, h3]
  · simp only [checkModuleFormatStrict]
    split_ifs with h1 h2
    · constructor
      · intro _
        exact Or.inr (Nat.pos_of_ne_zero h1)
      · intro _
        exact ⟨warnFormatUnknown, rfl⟩
    · constructor
      · intro _
        exact Or.inl (Nat.pos_of_ne_zero h2)
      · intro _
        exact ⟨warnFormatCjs, rfl⟩
    · constructor
      · rintro ⟨w, hw⟩
        simp at hw
      · rintro (h | h) <;> omega

/-- C8: the lenient entry point on the single file x.ts with content
export const a = 1 and type checking disabled returns exactly the record
with isTs true, the other five flags false and both exposed counters
zero; the record exposes unknowCount and cjsCount only, with no esmCount
field. -/
theorem c8_end_to_end_lenient
    (parse : DepsFile → Except String TSNode)
    (typeCheck : List DepsFile → Except String Unit)
    (hparse : parse { file := "x.ts", content := "export const a = 1;" } =
      Except.ok exportVarTree) :
    check parse typeCheck [{ file := "x.ts", content := "export const a = 1;" }] true =
      Except.ok
        { isNone := false, isJsx := false, isCjs := false, isBoth := false,
          isJs := false, isTs := true, unknowCount := 0, cjsCount := 0 } := by
  have hcm : checkModuleFormat parse
      [{ file := "x.ts", content := "export const a = 1;" }] = ⟨1, 0, 0⟩ := by
    rw [checkModuleFormat_cons, hparse, checkModuleFormat_nil]
    decide
  have hce : checkExtGroup [{ file := "x.ts", content := "export const a = 1;" }] =
      { isNone := false, isJsx := false, isCjs := false, isBoth := false,
        isJs := false, isTs := true } := by decide
  simp [check, hce, hcm]

/-- Witness for C8: the theorem applied to the concrete parser that
returns the exported-variable-statement tree and a trivial external
type-check engine. -/
theorem c8_witness :
    check (fun _ => Except.ok exportVarTree) (fun _ => Except.ok ())
        [{ file := "x.ts", content := "export const a = 1;" }] true =
      Except.ok
        { isNone := false, isJsx := false, isCjs := false, isBoth := false,
          isJs := false, isTs := true, unknowCount := 0, cjsCount := 0 } :=
  c8_end_to_end_lenient (fun _ => Except.ok exportVarTree) (fun _ => Except.ok ()) rfl

/-- C9: the Module-Format Analyzer is deterministic: two sequential
invocations on the same unchanged batch with the same parser produce
identical counters, every invocation starting from zeroed counters. -/
theorem c9_analyzer_deterministic (parse : DepsFile → Except String TSNode)
    (deps : List DepsFile) :
    (checkModuleFormatTwice parse deps).1 = (checkModuleFormatTwice parse deps).2 ∧
    (checkModuleFormatTwice parse deps).1 =
      deps.foldl (fun c dep => classifyStep c (parse dep)) zeroCounters := by
  exact ⟨rfl, rfl⟩

/-- C10: on the empty batch the lenient classifier reports isNone false
and all five homogeneity flags vacuously true; the strict variant
therefore exits, and it exits at the isCjs check (printing the commonjs
warning), which fires before the isBoth check. -/
theorem c10_empty_batch_flags :
    checkExtGroup [] =
      { isNone := false, isJsx := true, isCjs := true, isBoth := true,
        isJs := true, isTs := true } ∧
    checkExtGroupStrict [] = StrictOutcome.exited warnExtCjs ∧
    warnExtCjs ≠ warnExtNone ∧ warnExtCjs ≠ warnExtBoth := by
  refine ⟨by decide, by decide, by decide, by decide⟩
